import Mathlib

/-!
Shallow embedding of `src/key.rs` from the meilisearch Rust SDK: the `Key`,
`KeyBuilder`, `KeysQuery` data shapes, the `Action` permission enumeration,
and the serde-derived (de)serialization they carry.  Serialization is modelled
as a function into a small JSON syntax; the serde attributes
(`rename_all = "camelCase"`, `skip_serializing`, `skip_serializing_if`,
`with = "time::serde::rfc3339"` / `rfc3339::option`, `rename = "..."` on enum
variants) are reproduced field by field.  RFC3339 text handling itself lives in
the external `time` crate, so a timestamp is modelled abstractly by its RFC3339
rendering.
-/

namespace MeiliKey

/-- Minimal JSON value syntax, enough to express the payloads serde_json
produces for these types: null, strings, numbers, arrays and objects
(objects keep field order, as serde emits fields in declaration order). -/
inductive Json where
  | null : Json
  | str : String → Json
  | num : Nat → Json
  | arr : List Json → Json
  | obj : List (String × Json) → Json

/-- First value bound to a field name in an object field list (serde errors on
duplicate fields, which we do not model; lookups here see the first occurrence). -/
def findField : List (String × Json) → String → Option Json
  | [], _ => none
  | (n, v) :: rest, name => if n = name then some v else findField rest name

/-- Field lookup on a JSON value: only objects have fields. -/
def Json.getField : Json → String → Option Json
  | .obj fields, name => findField fields name
  | _, _ => none

/-- Whether a serialized payload contains a field of the given name. -/
def Json.hasField (j : Json) (name : String) : Bool :=
  (j.getField name).isSome

/-- `time::OffsetDateTime`, abstracted by its RFC3339 rendering: the claims
under study only concern presence/absence and pass-through of timestamps, and
RFC3339 formatting/parsing is delegated to the external `time` crate. -/
structure OffsetDateTime where
  rfc3339 : String
deriving DecidableEq

/-- RFC3339 parsing, modelled as accepting the rendering unchanged (the
`time` crate validates the text; that validation is external to this module). -/
def OffsetDateTime.parseRfc3339 (s : String) : Option OffsetDateTime :=
  some ⟨s⟩

/-- The `Action` enum of `src/key.rs` (lines 334-384): 16 variants, each with a
`#[serde(rename = "...")]` wire token. -/
inductive Action where
  | All
  | Search
  | DocumentsAdd
  | DocumentsGet
  | DocumentsDelete
  | IndexesCreate
  | IndexesGet
  | IndexesUpdate
  | IndexesDelete
  | TasksGet
  | SettingsGet
  | SettingsUpdate
  | StatsGet
  | DumpsCreate
  | DumpsGet
  | Version
deriving DecidableEq, Fintype

/-- Wire token of each `Action` variant, from the `#[serde(rename = "...")]`
attributes: this is what serde's `Serialize` derive emits. -/
def Action.toWireToken : Action → String
  | .All => "*"
  | .Search => "search"
  | .DocumentsAdd => "documents.add"
  | .DocumentsGet => "documents.get"
  | .DocumentsDelete => "documents.delete"
  | .IndexesCreate => "indexes.create"
  | .IndexesGet => "indexes.get"
  | .IndexesUpdate => "indexes.update"
  | .IndexesDelete => "indexes.delete"
  | .TasksGet => "tasks.get"
  | .SettingsGet => "settings.get"
  | .SettingsUpdate => "settings.update"
  | .StatsGet => "stats.get"
  | .DumpsCreate => "dumps.create"
  | .DumpsGet => "dumps.get"
  | .Version => "version"

/-- serde's `Deserialize` derive for the closed `Action` enum: a string equal
to one of the rename tokens yields that variant; any other string is an error
(there is no catch-all variant). -/
def Action.fromWireToken (s : String) : Option Action :=
  if s = "*" then some .All
  else if s = "search" then some .Search
  else if s = "documents.add" then some .DocumentsAdd
  else if s = "documents.get" then some .DocumentsGet
  else if s = "documents.delete" then some .DocumentsDelete
  else if s = "indexes.create" then some .IndexesCreate
  else if s = "indexes.get" then some .IndexesGet
  else if s = "indexes.update" then some .IndexesUpdate
  else if s = "indexes.delete" then some .IndexesDelete
  else if s = "tasks.get" then some .TasksGet
  else if s = "settings.get" then some .SettingsGet
  else if s = "settings.update" then some .SettingsUpdate
  else if s = "stats.get" then some .StatsGet
  else if s = "dumps.create" then some .DumpsCreate
  else if s = "dumps.get" then some .DumpsGet
  else if s = "version" then some .Version
  else none

/-- The `Key` struct of `src/key.rs` (lines 9-26), field for field. -/
structure Key where
  actions : List Action
  created_at : OffsetDateTime
  description : Option String
  name : Option String
  expires_at : Option OffsetDateTime
  indexes : List String
  key : String
  updated_at : OffsetDateTime

/-- serde serialization of an `Option<String>` field with no attributes:
`None` becomes JSON null, `Some s` the string. -/
def serializeOptString : Option String → Json
  | none => .null
  | some s => .str s

/-- `time::serde::rfc3339::option` on the serialize side: `None` becomes JSON
null, `Some t` the RFC3339 string.  There is no omission here; omission only
happens via `skip_serializing_if`, which neither `expires_at` field carries. -/
def serializeRfc3339Option : Option OffsetDateTime → Json
  | none => .null
  | some t => .str t.rfc3339

/-- Write-path serialization of `Key`, mirroring the serde derive with its
attributes: fields in declaration order, camelCase names; `actions` and
`indexes` skipped when empty (`skip_serializing_if = "Vec::is_empty"`);
`created_at`, `key`, `updated_at` always skipped (`skip_serializing`);
`expires_at` via `rfc3339::option` with no skip attribute. -/
def Key.serialize (k : Key) : Json :=
  .obj
    ((if k.actions.isEmpty then []
      else [("actions", .arr (k.actions.map fun a => .str a.toWireToken))])
     ++ [("description", serializeOptString k.description),
         ("name", serializeOptString k.name),
         ("expiresAt", serializeRfc3339Option k.expires_at)]
     ++ (if k.indexes.isEmpty then []
         else [("indexes", .arr (k.indexes.map fun s => .str s))]))

/-- Deserialize a JSON array of action tokens; any non-string element or
unknown token is an error. -/
def decodeActionList : List Json → Option (List Action)
  | [] => some []
  | .str s :: rest =>
    match Action.fromWireToken s with
    | some a => (decodeActionList rest).map fun l => a :: l
    | none => none
  | _ :: _ => none

/-- Deserialize a JSON array of strings; any non-string element is an error. -/
def decodeStringList : List Json → Option (List String)
  | [] => some []
  | .str s :: rest => (decodeStringList rest).map fun l => s :: l
  | _ :: _ => none

/-- Read-path deserialization of `Key`, mirroring the serde derive: `actions`
and `indexes` are plain `Vec` fields with no `#[serde(default)]`, so a missing
field is an error; `description` and `name` are `Option` fields with no `with`
attribute, so a missing field defaults to `None`; `expiresAt` uses
`with = "rfc3339::option"`, which disables the implicit `Option` default, so
the field is required (accepting null for `None`); `createdAt`, `key` and
`updatedAt` are required (`skip_serializing` does not affect deserialization).
Unknown fields are ignored (no `deny_unknown_fields`). -/
def Key.deserialize (j : Json) : Option Key :=
  Option.bind (j.getField "actions") fun av =>
  Option.bind (match av with | .arr xs => decodeActionList xs | _ => none) fun actions =>
  Option.bind (j.getField "createdAt") fun cv =>
  Option.bind (match cv with | .str s => OffsetDateTime.parseRfc3339 s | _ => none) fun created_at =>
  Option.bind (match j.getField "description" with
               | none => some none
               | some .null => some none
               | some (.str s) => some (some s)
               | some _ => none) fun description =>
  Option.bind (match j.getField "name" with
               | none => some none
               | some .null => some none
               | some (.str s) => some (some s)
               | some _ => none) fun name =>
  Option.bind (j.getField "expiresAt") fun ev =>
  Option.bind (match ev with
               | .null => some none
               | .str s => (OffsetDateTime.parseRfc3339 s).map some
               | _ => none) fun expires_at =>
  Option.bind (j.getField "indexes") fun iv =>
  Option.bind (match iv with | .arr xs => decodeStringList xs | _ => none) fun indexes =>
  Option.bind (j.getField "key") fun kv =>
  Option.bind (match kv with | .str s => some s | _ => none) fun key =>
  Option.bind (j.getField "updatedAt") fun uv =>
  Option.bind (match uv with | .str s => OffsetDateTime.parseRfc3339 s | _ => none) fun updated_at =>
  some { actions, created_at, description, name, expires_at, indexes, key, updated_at }

/-- `Key::with_description` (`src/key.rs` lines 52-55): sets `description` to
`Some(desc)`.  Rust returns `&mut self`; in-place mutation is modelled by
returning the updated record. -/
def Key.with_description (k : Key) (desc : String) : Key :=
  { k with description := some desc }

/-- `Key::with_name` (`src/key.rs` lines 80-83): sets `name` to `Some(desc)`
(the Rust parameter is also called `desc`). -/
def Key.with_name (k : Key) (desc : String) : Key :=
  { k with name := some desc }

/-- The external `Client` collaborator: opaque to this module, which never
inspects it. -/
structure Client

/-- The `KeysQuery` struct of `src/key.rs` (lines 129-147): a client handle
(`skip_serializing`) plus optional `offset` and `limit`, each
`skip_serializing_if = "Option::is_none"`. -/
structure KeysQuery where
  client : Client
  offset : Option Nat
  limit : Option Nat

/-- `KeysQuery::new` (`src/key.rs` lines 150-156). -/
def KeysQuery.new (client : Client) : KeysQuery :=
  { client, offset := none, limit := none }

/-- `KeysQuery::with_offset` (`src/key.rs` lines 158-161). -/
def KeysQuery.with_offset (q : KeysQuery) (offset : Nat) : KeysQuery :=
  { q with offset := some offset }

/-- `KeysQuery::with_limit` (`src/key.rs` lines 162-165). -/
def KeysQuery.with_limit (q : KeysQuery) (limit : Nat) : KeysQuery :=
  { q with limit := some limit }

/-- Serialization of `KeysQuery`: `client` always skipped; `offset` and
`limit` omitted when `None`, numbers otherwise. -/
def KeysQuery.serialize (q : KeysQuery) : Json :=
  .obj
    ((match q.offset with | none => [] | some n => [("offset", .num n)])
     ++ (match q.limit with | none => [] | some n => [("limit", .num n)]))

/-- The `KeyBuilder` struct of `src/key.rs` (lines 196-204). -/
structure KeyBuilder where
  actions : List Action
  description : Option String
  expires_at : Option OffsetDateTime
  indexes : List String

/-- `KeyBuilder::new` (`src/key.rs` lines 215-222): empty actions and indexes,
no description, no expiry. -/
def KeyBuilder.new : KeyBuilder :=
  { actions := [], description := none, expires_at := none, indexes := [] }

/-- `KeyBuilder::with_actions` (`src/key.rs` lines 233-236):
`self.actions.extend(actions)` — appends. -/
def KeyBuilder.with_actions (b : KeyBuilder) (actions : List Action) : KeyBuilder :=
  { b with actions := b.actions ++ actions }

/-- `KeyBuilder::with_action` (`src/key.rs` lines 247-250):
`self.actions.push(action)` — appends one. -/
def KeyBuilder.with_action (b : KeyBuilder) (action : Action) : KeyBuilder :=
  { b with actions := b.actions ++ [action] }

/-- `KeyBuilder::with_expires_at` (`src/key.rs` lines 263-266). -/
def KeyBuilder.with_expires_at (b : KeyBuilder) (t : OffsetDateTime) : KeyBuilder :=
  { b with expires_at := some t }

/-- `KeyBuilder::with_indexes` (`src/key.rs` lines 277-286):
`self.indexes = indexes.into_iter().map(to_string).collect()` — wholesale
replacement. -/
def KeyBuilder.with_indexes (b : KeyBuilder) (indexes : List String) : KeyBuilder :=
  { b with indexes := indexes }

/-- `KeyBuilder::with_index` (`src/key.rs` lines 297-300):
`self.indexes.push(...)` — appends one. -/
def KeyBuilder.with_index (b : KeyBuilder) (index : String) : KeyBuilder :=
  { b with indexes := b.indexes ++ [index] }

/-- Serialization of `KeyBuilder`, mirroring its serde derive: camelCase,
fields in declaration order, and — unlike `Key` — no `skip_serializing_if`
anywhere: `actions` and `indexes` are always emitted, as `[]` when empty, and
`expiresAt` is always emitted, as null when `None`. -/
def KeyBuilder.serialize (b : KeyBuilder) : Json :=
  .obj
    [("actions", .arr (b.actions.map fun a => .str a.toWireToken)),
     ("description", serializeOptString b.description),
     ("expiresAt", serializeRfc3339Option b.expires_at),
     ("indexes", .arr (b.indexes.map fun s => .str s))]

/-- A concrete timestamp used by the closed witness/counterexample statements. -/
def sampleTime : OffsetDateTime :=
  ⟨"2022-01-01T00:00:00Z"⟩

/-- A concrete `Key` with empty actions/indexes and no expiry. -/
def sampleKey : Key :=
  { actions := [], created_at := sampleTime, description := none, name := none,
    expires_at := none, indexes := [], key := "abc123", updated_at := sampleTime }

/-- A concrete read payload that supplies every required field except
`actions` and `indexes`. -/
def payloadNoActions : Json :=
  .obj
    [("createdAt", .str "2022-01-01T00:00:00Z"),
     ("description", .null),
     ("name", .null),
     ("expiresAt", .null),
     ("key", .str "abc123"),
     ("updatedAt", .str "2022-01-01T00:00:00Z")]

/-- Claim C1: for every `Key`, the write-path serialization contains no
`key`, no `createdAt` and no `updatedAt` field, whatever the in-memory
values are. -/
theorem key_serialize_omits_server_fields (k : Key) :
    k.serialize.hasField "key" = false ∧
    k.serialize.hasField "createdAt" = false ∧
    k.serialize.hasField "updatedAt" = false := by
  rcases k with ⟨acts, c, d, n, e, ixs, ky, u⟩
  cases acts <;> cases ixs <;>
    simp [Key.serialize, Json.hasField, Json.getField, findField]

/-- Claim C7: `with_indexes` replaces the whole indexes sequence, while
`with_index` appends one entry preserving order. -/
theorem with_indexes_replaces_with_index_appends
    (b : KeyBuilder) (A B : List String) (x : String) :
    ((b.with_indexes A).with_indexes B).indexes = B ∧
    ((b.with_indexes A).with_index x).indexes = A ++ [x] :=
  ⟨rfl, rfl⟩

/-- Claim C8: `with_actions` appends the given actions and `with_action`
appends a single action, never replacing or deduplicating; two calls of
`with_action Search` leave two `Search` entries. -/
theorem with_actions_appends (b : KeyBuilder) (L : List Action) (a : Action) :
    (b.with_actions L).actions = b.actions ++ L ∧
    (b.with_action a).actions = b.actions ++ [a] ∧
    ((b.with_action .Search).with_action .Search).actions
      = b.actions ++ [.Search, .Search] := by
  refine ⟨rfl, rfl, ?_⟩
  simp [KeyBuilder.with_action]

/-- Claim C9: `KeysQuery.new` leaves offset and limit unset, and serializing
such a query yields a payload with both fields absent. -/
theorem keys_query_new_unset (c : Client) :
    (KeysQuery.new c).offset = none ∧
    (KeysQuery.new c).limit = none ∧
    (KeysQuery.new c).serialize.hasField "offset" = false ∧
    (KeysQuery.new c).serialize.hasField "limit" = false :=
  ⟨rfl, rfl, rfl, rfl⟩

/-- Claim C10: `with_description` sets only `description` and `with_name`
sets only `name`; every other field is unchanged (in-place mutation with a
returned self-reference is modelled as returning the updated record). -/
theorem with_description_with_name_frame (k : Key) (s : String) :
    (k.with_description s).description = some s ∧
    (k.with_description s).actions = k.actions ∧
    (k.with_description s).created_at = k.created_at ∧
    (k.with_description s).name = k.name ∧
    (k.with_description s).expires_at = k.expires_at ∧
    (k.with_description s).indexes = k.indexes ∧
    (k.with_description s).key = k.key ∧
    (k.with_description s).updated_at = k.updated_at ∧
    (k.with_name s).name = some s ∧
    (k.with_name s).actions = k.actions ∧
    (k.with_name s).created_at = k.created_at ∧
    (k.with_name s).description = k.description ∧
    (k.with_name s).expires_at = k.expires_at ∧
    (k.with_name s).indexes = k.indexes ∧
    (k.with_name s).key = k.key ∧
    (k.with_name s).updated_at = k.updated_at :=
  ⟨rfl, rfl, rfl, rfl, rfl, rfl, rfl, rfl,
   rfl, rfl, rfl, rfl, rfl, rfl, rfl, rfl⟩

set_option maxHeartbeats 1000000 in
/-- Claim C5: encode-then-decode is the identity on every `Action` variant,
and any string that is no variant's wire token fails to decode. -/
theorem action_token_round_trip :
    (∀ a : Action, Action.fromWireToken (Action.toWireToken a) = some a) ∧
    (∀ s : String, (∀ a : Action, Action.toWireToken a ≠ s) →
      Action.fromWireToken s = none) := by
  constructor
  · intro a
    cases a <;> rfl
  · intro s h
    unfold Action.fromWireToken
    rw [if_neg (fun hh => h .All hh.symm),
        if_neg (fun hh => h .Search hh.symm),
        if_neg (fun hh => h .DocumentsAdd hh.symm),
        if_neg (fun hh => h .DocumentsGet hh.symm),
        if_neg (fun hh => h .DocumentsDelete hh.symm),
        if_neg (fun hh => h .IndexesCreate hh.symm),
        if_neg (fun hh => h .IndexesGet hh.symm),
        if_neg (fun hh => h .IndexesUpdate hh.symm),
        if_neg (fun hh => h .IndexesDelete hh.symm),
        if_neg (fun hh => h .TasksGet hh.symm),
        if_neg (fun hh => h .SettingsGet hh.symm),
        if_neg (fun hh => h .SettingsUpdate hh.symm),
        if_neg (fun hh => h .StatsGet hh.symm),
        if_neg (fun hh => h .DumpsCreate hh.symm),
        if_neg (fun hh => h .DumpsGet hh.symm),
        if_neg (fun hh => h .Version hh.symm)]

/-- Witness for claim C5's theorem at concrete inputs: `Search` round-trips,
and the non-token string "bogus" fails to decode. -/
theorem action_token_round_trip_witness :
    Action.fromWireToken (Action.toWireToken .Search) = some .Search ∧
    Action.fromWireToken "bogus" = none :=
  ⟨action_token_round_trip.1 .Search,
   action_token_round_trip.2 "bogus" (by intro a; cases a <;> simp [Action.toWireToken])⟩

/-- Counterexample for claim C6: the `Action` enumeration does not have 14
variants (it has 16, matching the 16 names the claim itself lists). -/
theorem action_not_fourteen_variants : Fintype.card Action ≠ 14 := by
  decide

/-- Claim C6 amended: `Action` is a closed enumeration of exactly 16
variants, each mapping to its fixed wire-string token. -/
theorem action_sixteen_variants :
    Fintype.card Action = 16 ∧
    Action.toWireToken .All = "*" ∧
    Action.toWireToken .Search = "search" ∧
    Action.toWireToken .DocumentsAdd = "documents.add" ∧
    Action.toWireToken .DocumentsGet = "documents.get" ∧
    Action.toWireToken .DocumentsDelete = "documents.delete" ∧
    Action.toWireToken .IndexesCreate = "indexes.create" ∧
    Action.toWireToken .IndexesGet = "indexes.get" ∧
    Action.toWireToken .IndexesUpdate = "indexes.update" ∧
    Action.toWireToken .IndexesDelete = "indexes.delete" ∧
    Action.toWireToken .TasksGet = "tasks.get" ∧
    Action.toWireToken .SettingsGet = "settings.get" ∧
    Action.toWireToken .SettingsUpdate = "settings.update" ∧
    Action.toWireToken .StatsGet = "stats.get" ∧
    Action.toWireToken .DumpsCreate = "dumps.create" ∧
    Action.toWireToken .DumpsGet = "dumps.get" ∧
    Action.toWireToken .Version = "version" := by
  refine ⟨by decide, rfl, rfl, rfl, rfl, rfl, rfl, rfl, rfl,
    rfl, rfl, rfl, rfl, rfl, rfl, rfl, rfl⟩

/-- Counterexample for claim C2: a payload supplying every required field
except `actions`/`indexes` does not deserialize to a `Key` with empty
sequences — it fails, because the `Vec` fields carry no serde default. -/
theorem missing_actions_deserialization_fails :
    Key.deserialize payloadNoActions = none := rfl

/-- Claim C2 amended: serializing a `Key` with empty `actions`/`indexes`
omits both fields, but deserializing a payload lacking the `actions` field
fails with a missing-field error rather than yielding an empty sequence. -/
theorem empty_vec_serialize_omits_but_deserialize_requires :
    (∀ k : Key, k.actions = [] → k.indexes = [] →
      k.serialize.hasField "actions" = false ∧
      k.serialize.hasField "indexes" = false) ∧
    (∀ j : Json, j.hasField "actions" = false → Key.deserialize j = none) := by
  constructor
  · intro k h1 h2
    constructor <;>
      simp [Key.serialize, Json.hasField, Json.getField, findField, h1, h2]
  · intro j h
    have ha : j.getField "actions" = none := by
      unfold Json.hasField at h
      exact Option.not_isSome_iff_eq_none.mp (by simp [h])
    unfold Key.deserialize
    rw [ha]
    rfl

/-- Witness for claim C2's amended theorem at concrete inputs. -/
theorem empty_vec_serialize_witness :
    sampleKey.serialize.hasField "actions" = false ∧
    Key.deserialize payloadNoActions = none :=
  ⟨(empty_vec_serialize_omits_but_deserialize_requires.1 sampleKey rfl rfl).1,
   empty_vec_serialize_omits_but_deserialize_requires.2 payloadNoActions rfl⟩

/-- Counterexample for claim C3: a `Key` and a `KeyBuilder` whose
`expires_at` is `None` still serialize an `expiresAt` field (as null),
because neither field carries `skip_serializing_if`. -/
theorem expires_at_none_still_serialized :
    sampleKey.expires_at = none ∧
    sampleKey.serialize.hasField "expiresAt" = true ∧
    KeyBuilder.new.expires_at = none ∧
    KeyBuilder.new.serialize.hasField "expiresAt" = true :=
  ⟨rfl, rfl, rfl, rfl⟩

/-- Claim C3 amended: the outbound payload of every `Key` and every
`KeyBuilder` always contains an `expiresAt` field — JSON null when
`expires_at` is `None`, the RFC3339 string when it is `Some`. -/
theorem expires_at_always_serialized (k : Key) (b : KeyBuilder) :
    (k.expires_at = none → k.serialize.getField "expiresAt" = some .null) ∧
    (∀ t, k.expires_at = some t →
      k.serialize.getField "expiresAt" = some (.str t.rfc3339)) ∧
    (b.expires_at = none → b.serialize.getField "expiresAt" = some .null) ∧
    (∀ t, b.expires_at = some t →
      b.serialize.getField "expiresAt" = some (.str t.rfc3339)) := by
  have hk : k.serialize.getField "expiresAt"
      = some (serializeRfc3339Option k.expires_at) := by
    rcases k with ⟨acts, c, d, n, e, ixs, ky, u⟩
    cases acts <;> cases ixs <;>
      simp [Key.serialize, Json.getField, findField]
  have hb : b.serialize.getField "expiresAt"
      = some (serializeRfc3339Option b.expires_at) := by
    simp [KeyBuilder.serialize, Json.getField, findField]
  refine ⟨fun h => ?_, fun t h => ?_, fun h => ?_, fun t h => ?_⟩
  · rw [hk, h]; rfl
  · rw [hk, h]; rfl
  · rw [hb, h]; rfl
  · rw [hb, h]; rfl

/-- Witness for claim C3's amended theorem at concrete inputs. -/
theorem expires_at_always_serialized_witness :
    sampleKey.serialize.getField "expiresAt" = some .null ∧
    KeyBuilder.new.serialize.getField "expiresAt" = some .null :=
  ⟨(expires_at_always_serialized sampleKey KeyBuilder.new).1 rfl,
   (expires_at_always_serialized sampleKey KeyBuilder.new).2.2.1 rfl⟩

/-- Counterexample for claim C4: `KeyBuilder::new` has empty `actions` and
`indexes`, yet its POST body contains both fields (as empty arrays) instead
of omitting them. -/
theorem builder_empty_fields_still_serialized :
    KeyBuilder.new.actions = [] ∧
    KeyBuilder.new.indexes = [] ∧
    KeyBuilder.new.serialize.hasField "actions" = true ∧
    KeyBuilder.new.serialize.hasField "indexes" = true :=
  ⟨rfl, rfl, rfl, rfl⟩

/-- Claim C4 amended: a `KeyBuilder` with an empty `actions` (resp.
`indexes`) sequence serializes that field as an empty JSON array rather
than omitting it. -/
theorem builder_serializes_empty_arrays (b : KeyBuilder) :
    (b.actions = [] → b.serialize.getField "actions" = some (.arr [])) ∧
    (b.indexes = [] → b.serialize.getField "indexes" = some (.arr [])) := by
  constructor <;> intro h <;>
    simp [KeyBuilder.serialize, Json.getField, findField, h]

/-- Witness for claim C4's amended theorem at a concrete input. -/
theorem builder_serializes_empty_arrays_witness :
    KeyBuilder.new.serialize.getField "actions" = some (.arr []) ∧
    KeyBuilder.new.serialize.getField "indexes" = some (.arr []) :=
  ⟨(builder_serializes_empty_arrays KeyBuilder.new).1 rfl,
   (builder_serializes_empty_arrays KeyBuilder.new).2 rfl⟩

end MeiliKey
